import Mathlib

/-!
Shallow embedding of the reconciliation engine of `src/scraper/database.py`
(class `DatabaseManager`) together with the configuration constants of
`src/config/settings.py`.  SQLite `REAL` values are modelled as `ℚ`,
SQL `NULL` as `Option`, and each SQL statement of `process_data`,
`_process_adiantamentos`, `import_from_excel`, `aplicar_sugestoes_colunas`,
`export_to_excel` and `validate_output` as an explicit function on row lists.
-/

namespace Conciliacao

/-! ## SQL value helpers -/

/-- SQL `COALESCE(x, d)` for numeric values. -/
def coalesceQ : Option ℚ → ℚ → ℚ
  | some v, _ => v
  | none, d => d

/-- SQL `=` on two nullable TEXT values: `NULL` compares false. -/
def optEqS : Option String → Option String → Bool
  | some a, some b => a == b
  | _, _ => false

/-- SQL `TRIM`: strips leading and trailing spaces. -/
def trimSpaces (s : String) : String :=
  String.mk (((s.toList.dropWhile (· == ' ')).reverse.dropWhile (· == ' ')).reverse)

/-- Lifting of `TRIM` to a nullable TEXT value. -/
def sqlTrim : Option String → Option String
  | some s => some (trimSpaces s)
  | none => none

/-- SQL `NULLIF(x, zero-length string)`. -/
def nullifEmpty : Option String → Option String
  | some s => if s = "" then none else some s
  | none => none

/-- Two-argument `COALESCE` on TEXT. -/
def coalesceS : Option String → Option String → Option String
  | some s, _ => some s
  | none, d => d

/-- SQL `||` string concatenation: `NULL` propagates. -/
def sqlConcat : Option String → Option String → Option String
  | some a, some b => some (a ++ b)
  | _, _ => none

/-- Does the character list starting here begin with the pattern? -/
def leadMatch : List Char → List Char → Bool
  | [], _ => true
  | _ :: _, [] => false
  | p :: ps, c :: cs => p == c && leadMatch ps cs

/-- Scan for the pattern anywhere in the character list. -/
def scanMatch (pat : List Char) : List Char → Bool
  | [] => leadMatch pat []
  | c :: cs => leadMatch pat (c :: cs) || scanMatch pat cs

/-- Python `pat in s` / substring containment. -/
def strContains (s pat : String) : Bool :=
  scanMatch pat.toList s.toList

/-- ASCII lower-casing (Python `str.lower` / `dict` keys of `lower_map`;
the header names involved are ASCII). -/
def lowerStr (s : String) : String := String.mk (s.toList.map Char.toLower)

/-- ASCII upper-casing (Python `str.upper`, SQLite `UPPER`; both fold
ASCII letters only). -/
def upperStr (s : String) : String := String.mk (s.toList.map Char.toUpper)

/-- SQLite `x LIKE 'pat%'` on a nullable TEXT value (default ASCII
case-insensitive collation, modelled by upper-casing both sides). -/
def likeStarts (x : Option String) (pat : String) : Bool :=
  match x with
  | some s => leadMatch (upperStr pat).toList (upperStr s).toList
  | none => false

/-- SQLite `x LIKE '%' || y || '%'` with nullable operands: a `NULL` on
either side yields a `NULL` (hence false) condition. -/
def likeContains (x y : Option String) : Bool :=
  match x, y with
  | some s, some pat => strContains (upperStr s) (upperStr pat)
  | _, _ => false

/-- SQL `SUBSTR(d, 1, INSTR(d, blank) - 1)` over `d` with a blank appended: the first space-delimited
token of `d`. -/
def firstToken (s : String) : String :=
  String.mk (s.toList.takeWhile (· ≠ ' '))

/-- Stand-in for SQLite's REAL→TEXT rendering inside concatenated detail
strings (no claim inspects these strings' exact digits). -/
def numStr (q : ℚ) : String := toString q

/-- SQL `GROUP_CONCAT(v, sep)`: concatenates the non-NULL values, `NULL` when
none. -/
def groupConcat (vals : List (Option String)) (sep : String) : Option String :=
  match vals.filterMap id with
  | [] => none
  | vs => some (String.intercalate sep vs)

/-- Round half away from zero to an integer (SQLite `ROUND`). -/
def roundAway (x : ℚ) : ℤ :=
  if 0 ≤ x then ⌊x + 1/2⌋ else -⌊(-x) + 1/2⌋

/-- SQLite `ROUND(x, 2)`. -/
def round2 (x : ℚ) : ℚ := (roundAway (x * 100) : ℚ) / 100

/-! ## Configuration constants (`src/config/settings.py`) -/

def TABLE_FINANCEIRO : String := "financeiro"
def TABLE_MODELO1 : String := "modelo1"
def TABLE_CONTAS_ITENS : String := "contas_itens"
def TABLE_ADIANTAMENTO : String := "adiantamento"
def TABLE_RESULTADO : String := "resultado"

/-! ## Row types (tables created in `_initialize_database`)

Only the columns read or written by the modelled statements are kept;
`id` and the `data_processamento` timestamps (both `DEFAULT
CURRENT_TIMESTAMP`, never read back by any query) are omitted, as are the
`financeiro` columns (`titulo`, `parcela`, dates, …) that no modelled
statement reads. -/

/-- A `financeiro` row (receivables ledger entry). -/
structure FinRow where
  fornecedor : Option String
  tipo_titulo : Option String
  saldo_devedor : Option ℚ
  excluido : Bool
  deriving DecidableEq

/-- A `modelo1` row (trial-balance line, ctbr040). -/
structure ModRow where
  descricao_conta : Option String
  codigo_fornecedor : Option String
  descricao_fornecedor : Option String
  saldo_atual : ℚ
  tipo_fornecedor : Option String
  deriving DecidableEq

/-- An `adiantamento` row (advance-payment account line, ctbr100). -/
structure AdiRow where
  codigo_fornecedor : Option String
  descricao_fornecedor : Option String
  saldo_atual : ℚ
  deriving DecidableEq

/-- A `contas_itens` row (item-level accounting detail, ctbr140). -/
structure ItemRow where
  conta_contabil : Option String
  descricao_item : Option String
  saldo_atual : ℚ
  deriving DecidableEq

/-- A `resultado` row.  Columns omitted by an `INSERT` take their SQL
defaults: `saldo_contabil`, `saldo_financeiro` and `diferenca` default to
`0` (hence `some 0`), `detalhes` and `ordem_importancia` to `NULL`. -/
structure ResRow where
  codigo_fornecedor : Option String
  descricao_fornecedor : Option String
  saldo_contabil : Option ℚ
  saldo_financeiro : Option ℚ
  diferenca : Option ℚ
  status : Option String
  detalhes : Option String
  ordem_importancia : Option ℤ
  deriving DecidableEq

/-- A `resultado_adiantamento` row. -/
structure AdvRow where
  codigo_fornecedor : Option String
  descricao_fornecedor : Option String
  total_financeiro : Option ℚ
  total_contabil : Option ℚ
  diferenca : Option ℚ
  status : Option String
  detalhes : Option String
  deriving DecidableEq

/-- The schema store.  `advSchemaOk` records whether the
`resultado_adiantamento` table already has the `total_financeiro` column
(the `PRAGMA table_info` check at the top of `_process_adiantamentos`). -/
structure DB where
  financeiro : List FinRow
  modelo1 : List ModRow
  contas_itens : List ItemRow
  adiantamento : List AdiRow
  resultado : List ResRow
  resultado_adiantamento : List AdvRow
  advSchemaOk : Bool

/-! ## Data cleaning (`_clean_modelo1_data`) -/

/-- Supplier-class tag derived from the account description
(`_clean_modelo1_data`, the `tipo_fornecedor` lambda). -/
def tipoFornecedorOf (descricao_conta : String) : String :=
  if strContains (upperStr descricao_conta) "FORNEC" &&
      strContains (upperStr descricao_conta) "NAC" then "FORNECEDOR NACIONAL"
  else if strContains (upperStr descricao_conta) "FORNEC" then "FORNECEDOR"
  else "OUTROS"

/-! ## Classification and difference (`query_diferenca` of `process_data`,
lines 936–952) -/

/-- The `CASE` expression setting `status`: `Pendente` only when both
stored totals are `NULL`, otherwise the 3 % relative tolerance decides
between `Conferido` and `Divergente`. -/
def classify (saldo_financeiro saldo_contabil : Option ℚ) : String :=
  if saldo_contabil = none ∧ saldo_financeiro = none then "Pendente"
  else if |coalesceQ saldo_financeiro 0 - coalesceQ saldo_contabil 0| ≤
      3/100 * (if |coalesceQ saldo_contabil 0| > |coalesceQ saldo_financeiro 0|
               then |coalesceQ saldo_contabil 0|
               else |coalesceQ saldo_financeiro 0|) then "Conferido"
  else "Divergente"

/-- Stored difference `diferenca = ROUND(COALESCE(saldo_financeiro,0) -
COALESCE(saldo_contabil,0), 2)`. -/
def diferencaCalc (saldo_financeiro saldo_contabil : Option ℚ) : ℚ :=
  round2 (coalesceQ saldo_financeiro 0 - coalesceQ saldo_contabil 0)

/-- Classification of the advance pass (`query_diferenca` of
`_process_adiantamentos`, lines 1465–1481); textually the same rule on
`total_financeiro` / `total_contabil`. -/
def classifyAdiantamento (total_financeiro total_contabil : Option ℚ) : String :=
  if total_contabil = none ∧ total_financeiro = none then "Pendente"
  else if |coalesceQ total_financeiro 0 - coalesceQ total_contabil 0| ≤
      3/100 * (if |coalesceQ total_contabil 0| > |coalesceQ total_financeiro 0|
               then |coalesceQ total_contabil 0|
               else |coalesceQ total_financeiro 0|) then "Conferido"
  else "Divergente"

/-! ## The exported Summary sheet (`query_resumo` of `export_to_excel`,
lines 1707–1739) -/

/-- The Summary sheet's column `Diferença (Contábil - Financeiro)` =
`saldo_contabil - saldo_financeiro` (SQL arithmetic, `NULL` propagates). -/
def resumoDiferenca (saldo_contabil saldo_financeiro : Option ℚ) : Option ℚ :=
  match saldo_contabil, saldo_financeiro with
  | some a, some b => some (a - b)
  | _, _ => none

/-- The same column after `pd.to_numeric(...).fillna(0)` (lines
1734–1737). -/
def resumoDiferencaExport (saldo_contabil saldo_financeiro : Option ℚ) : ℚ :=
  coalesceQ (resumoDiferenca saldo_contabil saldo_financeiro) 0

/-! ## The main reconciliation pass (`process_data`, lines 812–1026) -/

/-- Group key of `query_financeiro`: `TRIM(fornecedor)`. -/
def finKey (f : FinRow) : Option String := sqlTrim f.fornecedor

/-- Statement `query_financeiro` (lines 821–845): insert one `Pendente` row per
`TRIM(fornecedor)` group of the non-excluded ledger entries, summing
`COALESCE(saldo_devedor, 0)`; `saldo_contabil` and `diferenca` take their
`DEFAULT 0`. -/
def aggregateFinanceiro (fins : List FinRow) : List ResRow :=
  let act := fins.filter (fun f => !f.excluido)
  ((act.map finKey).dedup).map (fun k =>
    { codigo_fornecedor := k
      descricao_fornecedor := k
      saldo_contabil := some 0
      saldo_financeiro :=
        some (((act.filter (fun f => decide (finKey f = k))).map
          (fun f => coalesceQ f.saldo_devedor 0)).sum)
      diferenca := some 0
      status := some "Pendente"
      detalhes := none
      ordem_importancia := none })

/-- Strategy (a) of `query_contabil_update`: exact code equality guarded
by `IS NOT NULL AND <> ''`. -/
def exactCodeMatch (m : ModRow) (codigo : Option String) : Bool :=
  match m.codigo_fornecedor, codigo with
  | some c, some rc => c ≠ "" && c == rc
  | _, _ => false

/-- Strategy (b) of `query_contabil_update`: description equality. -/
def descricaoMatch (m : ModRow) (descricao : Option String) : Bool :=
  optEqS m.descricao_fornecedor descricao

/-- The `WHERE` of `query_contabil_update` (lines 848–873): the two
strategies are combined with `OR`. -/
def modMatches (m : ModRow) (codigo descricao : Option String) : Bool :=
  exactCodeMatch m codigo || descricaoMatch m descricao

/-- The `saldo_contabil` subquery: `COALESCE(SUM(saldo_atual), 0)` over
every `modelo1` row matched by `modMatches`. -/
def saldoContabilUpdate (mods : List ModRow) (codigo descricao : Option String) : ℚ :=
  ((mods.filter (fun m => modMatches m codigo descricao)).map
    (fun m => m.saldo_atual)).sum

/-- Modelled from the spec: strict strategy precedence — sum the
description-matched balances only when exact-code equality finds no
trial-balance record ("(b) … only if (a) finds nothing"). -/
def saldoContabilSpec (mods : List ModRow) (codigo descricao : Option String) : ℚ :=
  let exact := mods.filter (fun m => exactCodeMatch m codigo)
  if exact.isEmpty then
    ((mods.filter (fun m => descricaoMatch m descricao)).map
      (fun m => m.saldo_atual)).sum
  else (exact.map (fun m => m.saldo_atual)).sum

/-- The `detalhes` subquery of `query_contabil_update`:
`GROUP_CONCAT(COALESCE(tipo_fornecedor,'') || ': ' || saldo_atual, ' | ')`. -/
def detalhesContabil (mods : List ModRow) (codigo descricao : Option String) : Option String :=
  groupConcat
    ((mods.filter (fun m => modMatches m codigo descricao)).map
      (fun m => some ((match coalesceS m.tipo_fornecedor (some "") with
        | some t => t
        | none => "") ++ ": " ++ numStr m.saldo_atual))) " | "

/-- Statement `query_contabil_update` applied to one `resultado` row (`WHERE
EXISTS` guard included). -/
def updContabil (mods : List ModRow) (r : ResRow) : ResRow :=
  if mods.any (fun m => modMatches m r.codigo_fornecedor r.descricao_fornecedor) then
    { r with
      saldo_contabil :=
        some (saldoContabilUpdate mods r.codigo_fornecedor r.descricao_fornecedor)
      detalhes := detalhesContabil mods r.codigo_fornecedor r.descricao_fornecedor }
  else r

/-- Statement `query_adiantamento` (lines 876–890): add the advance balances found
by exact code equality; SQL `saldo_contabil + (…)` propagates a `NULL`
left operand. -/
def updAdiantamento (adis : List AdiRow) (r : ResRow) : ResRow :=
  if adis.any (fun a => optEqS a.codigo_fornecedor r.codigo_fornecedor) then
    { r with
      saldo_contabil :=
        match r.saldo_contabil with
        | none => none
        | some v =>
          some (v + ((adis.filter (fun a =>
              optEqS a.codigo_fornecedor r.codigo_fornecedor)).map
            (fun a => a.saldo_atual)).sum) }
  else r

/-- Condition `m.descricao_conta LIKE 'FORNEC%'` (SQLite `LIKE` is ASCII
case-insensitive). -/
def likeFornec (m : ModRow) : Bool := likeStarts m.descricao_conta "FORNEC"

/-- Condition `UPPER(m.descricao_conta) LIKE 'FORNECEDORES%'`. -/
def isConsolidado (m : ModRow) : Bool := likeStarts m.descricao_conta "FORNECEDORES"

/-- Expression `COALESCE(NULLIF(TRIM(codigo_fornecedor), ...),
SUBSTR(descricao_conta, 1, INSTR(descricao_conta || ' ', ' ') - 1))` —
the code expression used inside the `NOT EXISTS` of
`query_contabeis_sem_match`. -/
def semCodigoExpr (m : ModRow) : Option String :=
  coalesceS (nullifEmpty (sqlTrim m.codigo_fornecedor))
    (match m.descricao_conta with
     | some d => some (firstToken d)
     | none => none)

/-- The `codigo_fornecedor` `CASE` of `query_contabeis_sem_match`. -/
def semKeyCodigo (m : ModRow) : Option String :=
  if isConsolidado m then some "FORNECEDORES" else semCodigoExpr m

/-- The `descricao_fornecedor` `CASE` of `query_contabeis_sem_match`. -/
def semKeyDescricao (m : ModRow) : Option String :=
  if isConsolidado m then some "FORNECEDORES (Consolidado)"
  else coalesceS (nullifEmpty (sqlTrim m.descricao_fornecedor)) m.descricao_conta

/-- Statement `query_contabeis_sem_match` (lines 893–933): insert `Pendente` rows
for supplier-class accounting groups with no ledger counterpart.  Note
that the `NOT EXISTS` compares against `semCodigoExpr` (the plain
`COALESCE`), not against the `CASE` key, and that the `GROUP BY` also
keys on the description `CASE` and on `tipo_fornecedor`. -/
def contabeisSemMatch (mods : List ModRow) (existing : List ResRow) : List ResRow :=
  let pool := mods.filter (fun m => likeFornec m &&
    !(existing.any (fun r => optEqS r.codigo_fornecedor (semCodigoExpr m))))
  let keys := (pool.map (fun m =>
    (semKeyCodigo m, semKeyDescricao m, m.tipo_fornecedor))).dedup
  keys.map (fun k =>
    { codigo_fornecedor := k.1
      descricao_fornecedor := k.2.1
      saldo_contabil :=
        some (((pool.filter (fun m =>
            decide ((semKeyCodigo m, semKeyDescricao m, m.tipo_fornecedor) = k))).map
          (fun m => m.saldo_atual)).sum)
      saldo_financeiro := some 0
      diferenca := some 0
      status := some "Pendente"
      detalhes := k.2.2
      ordem_importancia := none })

/-- Statement `query_diferenca` applied to one row. -/
def updDiferenca (r : ResRow) : ResRow :=
  { r with
    diferenca := some (diferencaCalc r.saldo_financeiro r.saldo_contabil)
    status := some (classify r.saldo_financeiro r.saldo_contabil) }

/-- Condition `ci.conta_contabil LIKE '%' || codigo_fornecedor || '%'`. -/
def itemMatches (ci : ItemRow) (codigo : Option String) : Bool :=
  likeContains ci.conta_contabil codigo

/-- The item list of `query_investigacao` (lines 955–978).  The inner
`LIMIT 5` applies to the single aggregated row, so every matching item is
concatenated. -/
def investigacaoItens (itens : List ItemRow) (codigo : Option String) : Option String :=
  groupConcat
    ((itens.filter (fun ci => itemMatches ci codigo)).map (fun ci =>
      sqlConcat (sqlConcat (sqlConcat (some "Item: ") ci.descricao_item)
        (some " (Valor: R$ ")) (some (numStr ci.saldo_atual ++ ")")))) "; "

/-- Statement `query_investigacao` applied to one row: rewrite `detalhes` of
`Divergente` rows that have matching `contas_itens` lines. -/
def updInvestigacao (itens : List ItemRow) (r : ResRow) : ResRow :=
  if r.status = some "Divergente" &&
      itens.any (fun ci => itemMatches ci r.codigo_fornecedor) then
    { r with
      detalhes :=
        sqlConcat
          (sqlConcat (some "Divergência: R$ ")
            (match r.diferenca with
             | some d => some (numStr |d|)
             | none => none))
          (sqlConcat (some ". Itens Contábeis encontrados: ")
            (coalesceS (investigacaoItens itens r.codigo_fornecedor)
              (some "Nenhum item específico encontrado"))) }
  else r

/-- The fallback `UPDATE` (lines 981–987) for divergent rows with empty
or stale `detalhes`. -/
def updInvestigacaoFallback (r : ResRow) : ResRow :=
  if r.status = some "Divergente" &&
      (r.detalhes = none || r.detalhes = some "" ||
        likeContains r.detalhes (some "Conciliação")) then
    { r with
      detalhes :=
        sqlConcat
          (sqlConcat (some "Divergência: R$ ")
            (match r.diferenca with
             | some d => some (numStr |d|)
             | none => none))
          (some (". Investigar manualmente no sistema. " ++
            "Nenhum item contábil específico encontrado para análise automática.")) }
  else r

/-- The ranking `UPDATE` (lines 990–998) applied to one row:
`ordem_importancia` = number of result rows whose
`ABS(COALESCE(diferenca, 0))` is at least this row's. -/
def updRank (all : List ResRow) (r : ResRow) : ResRow :=
  { r with
    ordem_importancia :=
      some ((all.filter (fun r2 =>
        decide (|coalesceQ r2.diferenca 0| ≥ |coalesceQ r.diferenca 0|))).length : ℤ) }

/-- The final `detalhes` `CASE` (lines 1003–1013).  The compared literals
`'OK'` / `'PENDENTE'` never equal the stored statuses (`=` is
case-sensitive), so the `ELSE detalhes` branch always applies in
practice. -/
def updFinalDetalhes (r : ResRow) : ResRow :=
  if r.status = some "OK" then { r with detalhes := some "Conciliação perfeita" }
  else if r.status = some "PENDENTE" then
    { r with
      detalhes := some ("Financeiro: " ++ numStr (coalesceQ r.saldo_financeiro 0) ++
        " | Contábil: " ++ numStr (coalesceQ r.saldo_contabil 0) ++
        " | Diferença: " ++ numStr (coalesceQ r.diferenca 0)) }
  else r

/-! ## The advance pass (`_process_adiantamentos`, lines 1365–1486) -/

/-- Condition `UPPER(tipo_titulo) IN ('NDF', 'PA')`; a `NULL` tag yields a `NULL`
(false) condition. -/
def isNdfPa (tipo : Option String) : Bool :=
  match tipo with
  | some t => upperStr t == "NDF" || upperStr t == "PA"
  | none => false

/-- Statement `query_adiantamento_financeiro` (lines 1379–1395): one `Pendente` row
per `TRIM(fornecedor)` group of non-excluded NDF/PA entries. -/
def aggregateAdvFin (fins : List FinRow) : List AdvRow :=
  let act := fins.filter (fun f => !f.excluido && isNdfPa f.tipo_titulo)
  ((act.map finKey).dedup).map (fun k =>
    { codigo_fornecedor := k
      descricao_fornecedor := k
      total_financeiro :=
        some (((act.filter (fun f => decide (finKey f = k))).map
          (fun f => coalesceQ f.saldo_devedor 0)).sum)
      total_contabil := some 0
      diferenca := some 0
      status := some "Pendente"
      detalhes := none })

/-- Statement `query_soma_valores` (lines 1398–1415).  The double-quoted
`"Titulos a vencer Valor nominal"` is not a column of the `financeiro`
table, so SQLite degrades it to a string literal whose numeric value in
the addition is `0`; the correlated match uses the raw (untrimmed)
`fornecedor` and the `IN` subquery has no `excluido` filter. -/
def updAdvSoma (fins : List FinRow) (a : AdvRow) : AdvRow :=
  if fins.any (fun f => isNdfPa f.tipo_titulo &&
      optEqS f.fornecedor a.codigo_fornecedor) then
    { a with
      total_financeiro :=
        some (((fins.filter (fun f => optEqS f.fornecedor a.codigo_fornecedor &&
            !f.excluido && isNdfPa f.tipo_titulo)).map
          (fun f => coalesceQ f.saldo_devedor 0 + 0)).sum) }
  else a

/-- The `query_contabil_update` of the advance pass (lines 1418–1437). -/
def updAdvContabil (adis : List AdiRow) (a : AdvRow) : AdvRow :=
  if adis.any (fun x => optEqS x.codigo_fornecedor a.codigo_fornecedor) then
    { a with
      total_contabil :=
        some (((adis.filter (fun x =>
            optEqS x.codigo_fornecedor a.codigo_fornecedor)).map
          (fun x => x.saldo_atual)).sum)
      detalhes :=
        sqlConcat (some "Adiantamento: ")
          (coalesceS
            (groupConcat
              ((adis.filter (fun x =>
                  optEqS x.codigo_fornecedor a.codigo_fornecedor)).map (fun x =>
                sqlConcat x.descricao_fornecedor
                  (some (": R$ " ++ numStr x.saldo_atual)))) " | ")
            (some "Nenhum registro contábil")) }
  else a

/-- The advance `query_contabeis_sem_match` (lines 1440–1462). -/
def advSemMatch (adis : List AdiRow) (existing : List AdvRow) : List AdvRow :=
  let pool := adis.filter (fun x =>
    (match x.codigo_fornecedor with
     | some c => decide (c ≠ "")
     | none => false) &&
    !(existing.any (fun r => optEqS r.codigo_fornecedor x.codigo_fornecedor)))
  let keys := (pool.map (fun x => (x.codigo_fornecedor, x.descricao_fornecedor))).dedup
  keys.map (fun k =>
    { codigo_fornecedor := k.1
      descricao_fornecedor := k.2
      total_financeiro := some 0
      total_contabil :=
        some (((pool.filter (fun x =>
            decide ((x.codigo_fornecedor, x.descricao_fornecedor) = k))).map
          (fun x => x.saldo_atual)).sum)
      diferenca := some 0
      status := some "Pendente"
      detalhes := some "Adiantamento contábil sem correspondência financeira" })

/-- The advance `query_diferenca` applied to one row. -/
def updAdvDiferenca (a : AdvRow) : AdvRow :=
  { a with
    diferenca :=
      some (round2 (coalesceQ a.total_financeiro 0 - coalesceQ a.total_contabil 0))
    status := some (classifyAdiantamento a.total_financeiro a.total_contabil) }

/-! ## Transactional structure of `process_data`

`process_data` opens one transaction, commits at the end and rolls back
on any error; `_recreate_adiantamento_table` (lines 1488–1512), reached
when the `resultado_adiantamento` table lacks the `total_financeiro`
column, issues its own `conn.commit()` in the middle of the run. -/

/-- One SQL statement of the run, or a `COMMIT`. -/
inductive TxStep where
  | act (f : DB → DB)
  | commitStep

/-- Statements `DELETE FROM resultado; DELETE FROM resultado_adiantamento` (lines
818–819). -/
def stDelete (db : DB) : DB := { db with resultado := [], resultado_adiantamento := [] }

def stInsertFin (db : DB) : DB :=
  { db with resultado := db.resultado ++ aggregateFinanceiro db.financeiro }

def stUpdContabil (db : DB) : DB :=
  { db with resultado := db.resultado.map (updContabil db.modelo1) }

def stUpdAdiantamento (db : DB) : DB :=
  { db with resultado := db.resultado.map (updAdiantamento db.adiantamento) }

def stSemMatch (db : DB) : DB :=
  { db with resultado := db.resultado ++ contabeisSemMatch db.modelo1 db.resultado }

def stDiferenca (db : DB) : DB :=
  { db with resultado := db.resultado.map updDiferenca }

def stInvestigacao (db : DB) : DB :=
  { db with resultado := db.resultado.map (updInvestigacao db.contas_itens) }

def stInvestigacaoFallback (db : DB) : DB :=
  { db with resultado := db.resultado.map updInvestigacaoFallback }

def stRank (db : DB) : DB :=
  { db with resultado := db.resultado.map (updRank db.resultado) }

def stFinalDetalhes (db : DB) : DB :=
  { db with resultado := db.resultado.map updFinalDetalhes }

/-- Method `_recreate_adiantamento_table`: `DROP TABLE` + `CREATE TABLE` leaves
an empty, correctly-shaped table; the function ends with
`self.conn.commit()` (modelled as the `commitStep` that follows it). -/
def stRecreate (db : DB) : DB :=
  { db with resultado_adiantamento := [], advSchemaOk := true }

def stAdvInsert (db : DB) : DB :=
  { db with resultado_adiantamento :=
      db.resultado_adiantamento ++ aggregateAdvFin db.financeiro }

def stAdvSoma (db : DB) : DB :=
  { db with resultado_adiantamento :=
      db.resultado_adiantamento.map (updAdvSoma db.financeiro) }

def stAdvContabil (db : DB) : DB :=
  { db with resultado_adiantamento :=
      db.resultado_adiantamento.map (updAdvContabil db.adiantamento) }

def stAdvSemMatch (db : DB) : DB :=
  { db with resultado_adiantamento :=
      db.resultado_adiantamento ++ advSemMatch db.adiantamento db.resultado_adiantamento }

def stAdvDiferenca (db : DB) : DB :=
  { db with resultado_adiantamento := db.resultado_adiantamento.map updAdvDiferenca }

/-- The statements of one `process_data` run, in source order.  The
schema check of `_process_adiantamentos` reads `advSchemaOk`, which no
earlier statement modifies, so the branch may be taken on the initial
flag.  The final `commitStep` is the `self.conn.commit()` of line 1018. -/
def stepsFor (advOk : Bool) : List TxStep :=
  [.act stDelete, .act stInsertFin, .act stUpdContabil, .act stUpdAdiantamento,
   .act stSemMatch, .act stDiferenca, .act stInvestigacao,
   .act stInvestigacaoFallback, .act stRank, .act stFinalDetalhes] ++
  (if advOk then [] else [.act stRecreate, .commitStep]) ++
  [.act stAdvInsert, .act stAdvSoma, .act stAdvContabil, .act stAdvSemMatch,
   .act stAdvDiferenca, .commitStep]

/-- Transaction state: the durable store and the uncommitted view. -/
structure Tx where
  committed : DB
  current : DB

def runSteps : List TxStep → Tx → Tx
  | [], tx => tx
  | .act f :: rest, tx => runSteps rest { tx with current := f tx.current }
  | .commitStep :: rest, tx =>
      runSteps rest { committed := tx.current, current := tx.current }

/-- A successful `process_data` run. -/
def processData (db : DB) : DB :=
  (runSteps (stepsFor db.advSchemaOk) ⟨db, db⟩).current

/-- The durable store visible after an error raised once the first `k`
statements have executed: the `except` handler's `self.conn.rollback()`
restores the last committed state. -/
def committedAfterFailure (db : DB) (k : ℕ) : DB :=
  (runSteps ((stepsFor db.advSchemaOk).take k) ⟨db, db⟩).committed

/-- Holds exactly on `commitStep`. -/
def isCommit : TxStep → Bool
  | .commitStep => true
  | .act _ => false

/-- The `resultado` table produced by a run, as a standalone pipeline (for
reasoning; equal to `(processData db).resultado`). -/
def resultadoPipeline (fins : List FinRow) (mods : List ModRow)
    (itens : List ItemRow) (adis : List AdiRow) : List ResRow :=
  let r1 := aggregateFinanceiro fins
  let r2 := r1.map (updContabil mods)
  let r3 := r2.map (updAdiantamento adis)
  let r4 := r3 ++ contabeisSemMatch mods r3
  let r5 := r4.map updDiferenca
  let r6 := r5.map (updInvestigacao itens)
  let r7 := r6.map updInvestigacaoFallback
  let r8 := r7.map (updRank r7)
  r8.map updFinalDetalhes

/-- The `resultado_adiantamento` table produced by a run, as a standalone
pipeline (equal to `(processData db).resultado_adiantamento`). -/
def advPipeline (fins : List FinRow) (adis : List AdiRow) : List AdvRow :=
  let a1 := aggregateAdvFin fins
  let a2 := a1.map (updAdvSoma fins)
  let a3 := a2.map (updAdvContabil adis)
  let a4 := a3 ++ advSemMatch adis a3
  a4.map updAdvDiferenca

/-! ## Header resolution on import (`import_from_excel` lines 365–389 and
`aplicar_sugestoes_colunas` lines 207–285)

The state is the list of column names of the dataframe; renaming a column
maps every occurrence of the old name.  `difflib.get_close_matches(q, cs,
n=1, cutoff=0.6)` is a standard-library function, modelled by a parameter
`cm : String → List String → Option String`; any result it returns is
drawn from its candidate list. -/

/-- Modelled from the spec: the exceptions module (`scraper/exceptions.py`)
is not under `src/`; per the spec's taxonomy, `FormatError`
(`PlanilhaFormatacaoErradaError`) aborts a source's import.  The two ways
the import raises it: the unresolved-columns failure of line 387 carries
the file path and the missing column names; a failure inside
`aplicar_sugestoes_colunas` (line 283) carries neither. -/
inductive ImportFailure where
  | formatError (file : String) (missing : List String)
  | sugestoesError
  deriving DecidableEq

/-- Result of `get_expected_columns` for the `financeiro` table. -/
def expectedFinanceiro : List String :=
  ["fornecedor", "titulo", "parcela", "tipo_titulo", "data_emissao",
   "data_vencimento", "valor_original", "saldo_devedor", "situacao",
   "conta_contabil", "centro_custo"]

/-- Result of `get_expected_columns` for the `modelo1` table. -/
def expectedModelo1 : List String :=
  ["conta_contabil", "descricao_conta", "saldo_anterior", "debito",
   "credito", "saldo_atual"]

/-- Result of `get_expected_columns` for the `contas_itens` and `adiantamento`
tables (identical lists in the source). -/
def expectedContasItens : List String :=
  ["conta_contabil", "descricao_item", "codigo_fornecedor",
   "descricao_fornecedor", "saldo_anterior", "debito", "credito", "saldo_atual"]

/-- The `manual_mapping` dict of `aplicar_sugestoes_colunas` in insertion
order; the duplicated key `'Descricao'` keeps only its last value
(`'descricao_item'`), as a Python dict literal does. -/
def manualMapping : List (String × String) :=
  [("Codigo-Nome do Fornecedor", "fornecedor"),
   ("Prf-Numero Parcela", "titulo"),
   ("Tp", "tipo_titulo"),
   ("Data de Emissao", "data_emissao"),
   ("Data Emissão", "data_emissao"),
   ("Data de Vencto", "data_vencimento"),
   ("Data Vencimento", "data_vencimento"),
   ("Valor Original", "valor_original"),
   ("Tit Vencidos Valor nominal", "saldo_devedor"),
   ("Natureza", "situacao"),
   ("Porta- dor", "centro_custo"),
   ("Codigo.1", "codigo_fornecedor"),
   ("Descricao.1", "descricao_fornecedor"),
   ("Conta", "conta_contabil"),
   ("Descricao", "descricao_item"),
   ("Codigo", "conta_contabil")]

/-- Pandas rename of one column: every column named `src` becomes
`dest`; a no-op when `src` is absent. -/
def renameCol (cols : List String) (src dest : String) : List String :=
  cols.map (fun c => if c = src then dest else c)

/-- Lookup `lower_map[q]`: the dict comprehension over lower-cased candidates keeps,
per key, the last candidate. -/
def lowerFind (cands : List String) (q : String) : Option String :=
  cands.reverse.find? (fun c => lowerStr c == q)

/-- The manual-mapping loop (lines 244–249). -/
def manualPass : List (String × String) → List String × List String →
    List String × List String
  | [], st => st
  | (src, dest) :: rest, (cols, missing) =>
    if src ∈ cols ∧ dest ∈ missing then
      manualPass rest (renameCol cols src dest, missing.erase dest)
    else manualPass rest (cols, missing)

/-- The suggestion loop (lines 252–279) over a snapshot of the missing
list: case-insensitive exact match, then fuzzy match, then fuzzy match on
lower-cased candidates (whose dict lookup can fail if the matcher strays
outside its candidates — the error branch). -/
def sugLoop (cm : String → List String → Option String) (cands : List String) :
    List String → List String × List String →
    Except Unit (List String × List String)
  | [], st => .ok st
  | dbCol :: todo, (cols, missing) =>
    match lowerFind cands (lowerStr dbCol) with
    | some m => sugLoop cm cands todo (renameCol cols m dbCol, missing.erase dbCol)
    | none =>
      match cm dbCol cands with
      | some m => sugLoop cm cands todo (renameCol cols m dbCol, missing.erase dbCol)
      | none =>
        match cm (lowerStr dbCol) (cands.map lowerStr) with
        | some sl =>
          match lowerFind cands sl with
          | some m => sugLoop cm cands todo (renameCol cols m dbCol, missing.erase dbCol)
          | none => .error ()
        | none => sugLoop cm cands todo (cols, missing)

/-- Method `aplicar_sugestoes_colunas`: the candidate list and `lower_map` are
snapshotted from the dataframe at entry; the second loop iterates the
missing list left over by the manual pass. -/
def aplicarSugestoes (cm : String → List String → Option String)
    (cols missing : List String) : Except Unit (List String) :=
  let st1 := manualPass manualMapping (cols, missing)
  match sugLoop cm cols st1.2 st1 with
  | .ok st2 => .ok st2.1
  | .error e => .error e

/-- Lines 372–389 of `import_from_excel`: recompute the remaining missing
columns from the dataframe, synthesize `parcela` (extracted from `titulo`
when present) and `conta_contabil` (placeholder
`'CONTA_NAO_IDENTIFICADA'`, unconditionally), and raise
`PlanilhaFormatacaoErradaError` naming the file and whatever is still
missing. -/
def finalizeColumns (file : String) (cols1 expected : List String) :
    Except ImportFailure (List String) :=
  let remaining := expected.filter (fun c => decide (c ∉ cols1))
  if remaining.isEmpty then .ok cols1
  else
    let st1 := if "parcela" ∈ remaining ∧ "titulo" ∈ cols1 then
        (cols1 ++ ["parcela"], remaining.erase "parcela")
      else (cols1, remaining)
    let st2 := if "conta_contabil" ∈ st1.2 then
        (st1.1 ++ ["conta_contabil"], st1.2.erase "conta_contabil")
      else st1
    if st2.2.isEmpty then .ok st2.1
    else .error (.formatError file st2.2)

/-- Lines 365–389 of `import_from_excel`: check the expected columns, run
the suggestions when some are missing, then the derivation/failure stage
(`finalizeColumns`). -/
def importResolve (cm : String → List String → Option String) (file : String)
    (cols expected : List String) : Except ImportFailure (List String) :=
  let missing0 := expected.filter (fun c => decide (c ∉ cols))
  match (if missing0.isEmpty then Except.ok cols
    else match aplicarSugestoes cm cols missing0 with
      | .ok c => Except.ok c
      | .error _ => Except.error ImportFailure.sugestoesError) with
  | .error e => .error e
  | .ok cols1 => finalizeColumns file cols1 expected

/-! ## Table-name resolution (`import_from_excel`, lines 298–309) -/

/-- The `if/elif` chain on the lower-cased file-name stem that overrides
the caller's `table_name`. -/
def resolveTableName (stem declared : String) : String :=
  let filename := lowerStr stem
  if strContains filename "ctbr100" then TABLE_ADIANTAMENTO
  else if strContains filename "ctbr140" then TABLE_CONTAS_ITENS
  else if strContains filename "ctbr040" then TABLE_MODELO1
  else if strContains filename "finr150" then TABLE_FINANCEIRO
  else declared

/-- Does the stem carry any of the four markers? -/
def hasTableMarker (stem : String) : Bool :=
  strContains (lowerStr stem) "ctbr100" || strContains (lowerStr stem) "ctbr140" ||
  strContains (lowerStr stem) "ctbr040" || strContains (lowerStr stem) "finr150"

/-! ## Export validation (`export_to_excel` lines 1823–1834 and
`validate_output` lines 1836–1869) -/

/-- A worksheet of the produced workbook: its name, its first-row header
values, and the `number_format` of the row-2 cell below a given header
(`none` when that cell's value is `None`). -/
structure Sheet where
  name : String
  header : List String
  sampleFmt : String → Option String

/-- The `required_sheets` list of `validate_output`. -/
def requiredSheets : List String :=
  ["Resumo da Conciliação", "Títulos a Pagar", "Balancete", "Contas x Itens",
   "Metadados"]

/-- The `monetary_columns` list of `validate_output`. -/
def monetaryCheckColumns : List String :=
  ["Valor Financeiro", "Valor Contábil", "Diferença"]

/-- The cell-format test of lines 1860–1862: an error is raised only when
the format contains neither `'R$'` nor `'#,##0.00'`. -/
def fmtOk (fmt : String) : Bool :=
  strContains fmt "R$" || strContains fmt "#,##0.00"

/-- Method `validate_output`: any raised mismatch is caught and turned into
`False`.  Sheets are checked for presence; for each monetary column name
that happens to occur in the Summary header, the row-2 format is checked.
No other column headers are examined. -/
def validateOutput (wb : List Sheet) : Bool :=
  requiredSheets.all (fun s => wb.any (fun sh => sh.name == s)) &&
  (match wb.find? (fun sh => sh.name == "Resumo da Conciliação") with
   | none => false
   | some resumo =>
     monetaryCheckColumns.all (fun colName =>
       if colName ∈ resumo.header then
         match resumo.sampleFmt colName with
         | none => true
         | some fmt => fmtOk fmt
       else true))

/-- Lines 1823–1834: the exporter returns the output path only when
`validate_output` passed; otherwise the raised `ValueError` is re-raised
as the export error (`ResultsSaveError`). -/
def exportFinalize (wb : List Sheet) (path : String) : Except String String :=
  if validateOutput wb then .ok path
  else .error ("Erro ao exportar resultados: A validação da planilha gerada falhou: " ++ path)

/-- The column headers the Summary sheet actually carries (the aliases of
`query_resumo`, lines 1707–1731). -/
def resumoSheetHeaders : List String :=
  ["Descrição Fornecedor", "Saldo Contábil", "Saldo Financeiro",
   "Diferença (Contábil - Financeiro)", "Tipo Diferença", "Status",
   "Detalhes", "Data de Referência"]

/-! ## Concrete inputs used by counterexamples and witnesses -/

/-- Trial-balance rows for C3: an exact-code match and a separate
description-equality match for the same result row. -/
def exMods3 : List ModRow :=
  [{ descricao_conta := some "FORNECEDORES NACIONAIS",
     codigo_fornecedor := some "123",
     descricao_fornecedor := some "OUTRA EMPRESA",
     saldo_atual := 100,
     tipo_fornecedor := some "FORNECEDOR NACIONAL" },
   { descricao_conta := some "FORNECEDORES NACIONAIS",
     codigo_fornecedor := some "999",
     descricao_fornecedor := some "ACME",
     saldo_atual := 50,
     tipo_fornecedor := some "FORNECEDOR NACIONAL" }]

/-- A previously committed result row (C5). -/
def exRes5 : ResRow :=
  { codigo_fornecedor := some "0001", descricao_fornecedor := some "0001",
    saldo_contabil := some 0, saldo_financeiro := some 10, diferenca := some 10,
    status := some "Divergente", detalhes := none, ordem_importancia := some 1 }

/-- A store whose `resultado_adiantamento` table lacks the
`total_financeiro` column, holding one committed result row (C5). -/
def exDB5 : DB :=
  { financeiro := [], modelo1 := [], contas_itens := [], adiantamento := [],
    resultado := [exRes5], resultado_adiantamento := [], advSchemaOk := false }

/-- The same store with a well-shaped advance table (C5 witness). -/
def exDB5ok : DB :=
  { financeiro := [], modelo1 := [], contas_itens := [], adiantamento := [],
    resultado := [exRes5], resultado_adiantamento := [], advSchemaOk := true }

/-- Two supplier-class trial-balance lines whose descriptions both start
with `FORNECEDORES` but whose derived class tags differ (C7). -/
def exDB7 : DB :=
  { financeiro := []
    modelo1 :=
      [{ descricao_conta := some "FORNECEDORES NACIONAIS",
         codigo_fornecedor := none, descricao_fornecedor := none,
         saldo_atual := 10,
         tipo_fornecedor := some (tipoFornecedorOf "FORNECEDORES NACIONAIS") },
       { descricao_conta := some "FORNECEDORES ESTRANGEIROS",
         codigo_fornecedor := none, descricao_fornecedor := none,
         saldo_atual := 20,
         tipo_fornecedor := some (tipoFornecedorOf "FORNECEDORES ESTRANGEIROS") }]
    contas_itens := [], adiantamento := [], resultado := [],
    resultado_adiantamento := [], advSchemaOk := true }

/-- Two ranked result rows (C8 witness). -/
def exRes8a : ResRow :=
  { codigo_fornecedor := some "A", descricao_fornecedor := some "A",
    saldo_contabil := some 0, saldo_financeiro := some 10, diferenca := some 10,
    status := some "Divergente", detalhes := none, ordem_importancia := none }

def exRes8b : ResRow :=
  { codigo_fornecedor := some "B", descricao_fornecedor := some "B",
    saldo_contabil := some 0, saldo_financeiro := some 5, diferenca := some 5,
    status := some "Divergente", detalhes := none, ordem_importancia := none }

/-- The `financeiro` source headers with the account-code column absent
(C6): every other expected column resolves exactly, and
`difflib.get_close_matches('conta_contabil', ·, cutoff=0.6)` finds
nothing among them (the best similarity ratio is 0.462 < 0.6), so the
matcher parameter is instantiated by the constant `none`. -/
def finColsNoConta : List String :=
  ["fornecedor", "titulo", "parcela", "tipo_titulo", "data_emissao",
   "data_vencimento", "valor_original", "saldo_devedor", "situacao",
   "centro_custo"]

/-- A workbook carrying all five required sheets and not a single column
header (C9). -/
def wbEx9 : List Sheet :=
  requiredSheets.map (fun n => { name := n, header := [], sampleFmt := fun _ => none })

/-- A workbook whose Summary sheet carries the real exported headers
(C9 witness). -/
def wbEx9ok : List Sheet :=
  [{ name := "Resumo da Conciliação", header := resumoSheetHeaders,
     sampleFmt := fun _ => none },
   { name := "Títulos a Pagar", header := [], sampleFmt := fun _ => none },
   { name := "Balancete", header := [], sampleFmt := fun _ => none },
   { name := "Contas x Itens", header := [], sampleFmt := fun _ => none },
   { name := "Metadados", header := [], sampleFmt := fun _ => none }]

/-! ## Shared helper lemmas -/

/-- The SQL `CASE WHEN |c| > |f| THEN |c| ELSE |f| END` is the maximum. -/
theorem ifAbsMax (a b : ℚ) : (if b > a then b else a) = max a b := by
  rcases lt_or_le a b with h | h
  · rw [if_pos h, max_eq_right h.le]
  · rw [if_neg (not_lt.mpr h), max_eq_left h]

/-- A map whose values all vanish sums to zero. -/
theorem sum_map_zeroQ {κ : Type} (t : List κ) (g : κ → ℚ)
    (h : ∀ k ∈ t, g k = 0) : (t.map g).sum = 0 := by
  induction t with
  | nil => simp
  | cons a u ih =>
    rw [List.map_cons, List.sum_cons, h a (List.mem_cons_self a u),
      ih (fun k hk => h k (List.mem_cons_of_mem a hk)), add_zero]

/-- Summing an indicator of one key over a duplicate-free key list. -/
theorem sum_map_indicator {κ : Type} [DecidableEq κ] (ks : List κ) (k0 : κ) (x : ℚ)
    (hnd : ks.Nodup) (hk : k0 ∈ ks) :
    (ks.map (fun k => if k0 = k then x else 0)).sum = x := by
  induction ks with
  | nil => cases hk
  | cons a t ih =>
    rw [List.map_cons, List.sum_cons]
    rcases List.mem_cons.mp hk with rfl | hmem
    · rw [if_pos rfl, sum_map_zeroQ t _ (fun k hkk =>
        if_neg (fun h => (List.nodup_cons.mp hnd).1 (by rw [h]; exact hkk))), add_zero]
    · rw [if_neg (fun h => (List.nodup_cons.mp hnd).1 (by rw [← h]; exact hmem)), zero_add]
      exact ih (List.Nodup.of_cons hnd) hmem

/-- Summing a group-by result over a duplicate-free key list that covers
every row recovers the plain sum. -/
theorem sum_groupBy {α κ : Type} [DecidableEq κ] (key : α → κ) (f : α → ℚ)
    (rows : List α) (ks : List κ) (hnd : ks.Nodup)
    (hmem : ∀ a ∈ rows, key a ∈ ks) :
    (ks.map (fun k => ((rows.filter (fun a => decide (key a = k))).map f).sum)).sum
      = (rows.map f).sum := by
  induction rows with
  | nil => simp
  | cons a t ih =>
    have hka : key a ∈ ks := hmem a (List.mem_cons_self a t)
    have ht : ∀ x ∈ t, key x ∈ ks := fun x hx => hmem x (List.mem_cons_of_mem a hx)
    have hsplit : ∀ k, ((List.filter (fun x => decide (key x = k)) (a :: t)).map f).sum
        = (if key a = k then f a else 0)
          + ((List.filter (fun x => decide (key x = k)) t).map f).sum := by
      intro k
      rw [List.filter_cons]
      by_cases h : key a = k
      · simp [h]
      · simp [h]
    calc (ks.map (fun k =>
            ((List.filter (fun x => decide (key x = k)) (a :: t)).map f).sum)).sum
        = (ks.map (fun k => (if key a = k then f a else 0)
            + ((List.filter (fun x => decide (key x = k)) t).map f).sum)).sum := by
          exact congrArg _ (List.map_congr_left (fun k _ => hsplit k))
      _ = (ks.map (fun k => if key a = k then f a else 0)).sum
            + (ks.map (fun k =>
                ((List.filter (fun x => decide (key x = k)) t).map f).sum)).sum := by
          rw [← List.sum_map_add]
      _ = f a + (t.map f).sum := by rw [sum_map_indicator ks (key a) (f a) hnd hka, ih ht]
      _ = ((a :: t).map f).sum := by rw [List.map_cons, List.sum_cons]

/-- Splitting a filtered sum along a disjunction of predicates. -/
theorem sum_filter_orSplit (l : List ModRow) (p q : ModRow → Bool) :
    ((l.filter (fun m => p m || q m)).map (fun m => m.saldo_atual)).sum
      = ((l.filter p).map (fun m => m.saldo_atual)).sum
        + ((l.filter (fun m => !p m && q m)).map (fun m => m.saldo_atual)).sum := by
  induction l with
  | nil => simp
  | cons a t ih =>
    by_cases hp : p a <;> by_cases hq : q a <;>
      simp [List.filter_cons, hp, hq, ih] <;> ring

/-- A pointwise-smaller predicate with a strict witness keeps strictly
fewer rows. -/
theorem filter_length_ltRows {α : Type} (l : List α) (p q : α → Bool)
    (himp : ∀ x, p x = true → q x = true) (w : α) (hw : w ∈ l)
    (hqw : q w = true) (hpw : p w = false) :
    (l.filter p).length < (l.filter q).length := by
  have hmono : ∀ t : List α, (t.filter p).length ≤ (t.filter q).length := by
    intro t
    induction t with
    | nil => simp
    | cons a u ihu =>
      rw [List.filter_cons, List.filter_cons]
      by_cases hpa : p a
      · rw [if_pos hpa, if_pos (himp a hpa)]
        simpa using ihu
      · rw [if_neg hpa]
        by_cases hqa : q a
        · rw [if_pos hqa]
          exact ihu.trans (Nat.le_succ _)
        · rw [if_neg hqa]; exact ihu
  induction l with
  | nil => cases hw
  | cons a t ih =>
    rcases List.mem_cons.mp hw with rfl | hmem
    · rw [List.filter_cons, List.filter_cons, if_neg (by simp [hpw]), if_pos hqw]
      exact Nat.lt_succ_of_le (hmono t)
    · rw [List.filter_cons, List.filter_cons]
      by_cases hpa : p a
      · rw [if_pos hpa, if_pos (himp a hpa)]
        simpa using ih hmem
      · rw [if_neg hpa]
        by_cases hqa : q a
        · rw [if_pos hqa]
          exact Nat.lt_succ_of_lt (ih hmem)
        · rw [if_neg hqa]; exact ih hmem

/-- Running commit-free statements never changes the durable store. -/
theorem runSteps_committed (ts : List TxStep) (tx : Tx)
    (h : ∀ s ∈ ts, isCommit s = false) :
    (runSteps ts tx).committed = tx.committed := by
  induction ts generalizing tx with
  | nil => rfl
  | cons s rest ih =>
    cases s with
    | act f => exact ih _ (fun x hx => h x (List.mem_cons_of_mem _ hx))
    | commitStep => exact absurd (h _ (List.mem_cons_self _ _)) (by simp [isCommit])

/-- Erasing one element can only empty a list that held at most it. -/
theorem erase_eq_nil_cases (l : List String) (a : String) (h : l.erase a = []) :
    l = [] ∨ l = [a] := by
  cases l with
  | nil => exact Or.inl rfl
  | cons b t =>
    rw [List.erase_cons] at h
    by_cases hb : (b == a) = true
    · rw [if_pos hb] at h
      exact Or.inr (by rw [h, show b = a from by simpa using hb])
    · rw [if_neg hb] at h
      cases h

/-- Under a matcher that answers from its candidate list, the suggestion
loop never hits the failing dict lookup. -/
theorem sugLoop_isOk (cm : String → List String → Option String)
    (hcm : ∀ q cs m, cm q cs = some m → m ∈ cs) (cands : List String)
    (todo : List String) (st : List String × List String) :
    ∃ out, sugLoop cm cands todo st = .ok out := by
  induction todo generalizing st with
  | nil => exact ⟨st, rfl⟩
  | cons dbCol rest ih =>
    obtain ⟨cols, missing⟩ := st
    cases hA : lowerFind cands (lowerStr dbCol) with
    | some m => simp only [sugLoop, hA]; exact ih _
    | none =>
      cases hB : cm dbCol cands with
      | some m => simp only [sugLoop, hA, hB]; exact ih _
      | none =>
        cases hC : cm (lowerStr dbCol) (cands.map lowerStr) with
        | none => simp only [sugLoop, hA, hB, hC]; exact ih _
        | some sl =>
          obtain ⟨c, hc, rfl⟩ := List.mem_map.mp (hcm _ _ _ hC)
          cases hD : lowerFind cands (lowerStr c) with
          | some m => simp only [sugLoop, hA, hB, hC, hD]; exact ih _
          | none =>
            exfalso
            have hsome : (cands.reverse.find? (fun x => lowerStr x == lowerStr c)).isSome := by
              rw [List.find?_isSome]
              exact ⟨c, List.mem_reverse.mpr hc, by simp⟩
            rw [lowerFind] at hD
            rw [hD] at hsome
            simp at hsome

/-- A successful run only reorders nothing: it keeps the four input
tables, rebuilds both result tables from them alone, and leaves the
advance table well-shaped. -/
theorem processData_eq (db : DB) : processData db =
    { financeiro := db.financeiro, modelo1 := db.modelo1,
      contas_itens := db.contas_itens, adiantamento := db.adiantamento,
      resultado := resultadoPipeline db.financeiro db.modelo1 db.contas_itens db.adiantamento,
      resultado_adiantamento := advPipeline db.financeiro db.adiantamento,
      advSchemaOk := true } := by
  obtain ⟨fin, mods, itens, adis, res, resa, advOk⟩ := db
  cases advOk <;> rfl

/-- Evaluation of the tolerance `CASE` on a zero ledger side against a
positive accounting total of 10. -/
theorem classify_zero_ten : classify (some 0) (some 10) = "Divergente" := by
  rw [classify]
  rw [if_neg (by simp), if_neg (by norm_num [coalesceQ])]

/-- Evaluation of the tolerance `CASE` on a zero ledger side against a
positive accounting total of 20. -/
theorem classify_zero_twenty : classify (some 0) (some 20) = "Divergente" := by
  rw [classify]
  rw [if_neg (by simp), if_neg (by norm_num [coalesceQ])]

/-! ## Claim C4 -/

/-- Claim C4: `process_data` deletes both result tables at the start of
every run and rebuilds them from the imported tables alone, so a second
run on unchanged inputs reproduces the whole store exactly, and the
result tables never depend on what a previous run left behind. -/
theorem C4_idempotent_rebuild (db : DB) (r : List ResRow) (ra : List AdvRow) :
    processData (processData db) = processData db ∧
    processData { db with resultado := r, resultado_adiantamento := ra }
      = processData db := by
  constructor
  · rw [processData_eq db, processData_eq]
  · rw [processData_eq { db with resultado := r, resultado_adiantamento := ra },
      processData_eq db]

/-! ## Claim C1 -/

/-- Claim C1 counterexample: with a zero accounting total and a positive
ledger total of 500 the stored status is `Divergente`, and with both
totals zero (not `NULL`) it is `Conferido`; the claim demands `Pendente`
in both situations. -/
theorem C1_counterexample :
    classify (some 500) (some 0) = "Divergente" ∧
    classify (some 0) (some 0) = "Conferido" ∧
    "Divergente" ≠ "Pendente" ∧ "Conferido" ≠ "Pendente" := by
  refine ⟨?_, ?_, by decide, by decide⟩
  · rw [classify]
    rw [if_neg (by simp), if_neg (by norm_num [coalesceQ])]
  · rw [classify]
    rw [if_neg (by simp), if_pos (by norm_num [coalesceQ])]

/-- Claim C1 (amended): a result row is `Pendente` exactly when both
stored totals are SQL `NULL`; otherwise it is `Conferido` exactly when
`|L − A| ≤ 0.03 × max(|L|, |A|)` on the zero-coalesced totals and
`Divergente` otherwise — a zero side against a positive side is
Divergent, not Pending.  The advance-pass classifier applies the same
rule. -/
theorem C1_tolerance_rule (f c : Option ℚ) :
    (classify f c = "Pendente" ↔ (c = none ∧ f = none)) ∧
    (classify f c = "Conferido" ↔ (¬(c = none ∧ f = none) ∧
      |coalesceQ f 0 - coalesceQ c 0| ≤ 3/100 * max |coalesceQ f 0| |coalesceQ c 0|)) ∧
    (classify f c = "Divergente" ↔ (¬(c = none ∧ f = none) ∧
      ¬(|coalesceQ f 0 - coalesceQ c 0| ≤ 3/100 * max |coalesceQ f 0| |coalesceQ c 0|))) ∧
    classifyAdiantamento f c = classify f c := by
  have hmax : (if |coalesceQ c 0| > |coalesceQ f 0| then |coalesceQ c 0|
      else |coalesceQ f 0|) = max |coalesceQ f 0| |coalesceQ c 0| :=
    ifAbsMax |coalesceQ f 0| |coalesceQ c 0|
  unfold classify classifyAdiantamento
  rw [hmax]
  split_ifs with h1 h2
  · exact ⟨⟨fun _ => h1, fun _ => rfl⟩,
      ⟨fun h => absurd h (by decide), fun hh => absurd h1 hh.1⟩,
      ⟨fun h => absurd h (by decide), fun hh => absurd h1 hh.1⟩, rfl⟩
  · exact ⟨⟨fun h => absurd h (by decide), fun hh => absurd hh h1⟩,
      ⟨fun _ => ⟨h1, h2⟩, fun _ => rfl⟩,
      ⟨fun h => absurd h (by decide), fun hh => absurd h2 hh.2⟩, rfl⟩
  · exact ⟨⟨fun h => absurd h (by decide), fun hh => absurd hh h1⟩,
      ⟨fun h => absurd h (by decide), fun hh => absurd hh.2 h2⟩,
      ⟨fun _ => ⟨h1, h2⟩, fun _ => rfl⟩, rfl⟩

/-! ## Claim C2 -/

/-- Claim C2 counterexample: the stored difference of a row with ledger
total 100 and accounting total 40 is +60 (ledger − accounting), while the
exported Summary sheet shows −60 (accounting − ledger) for the same row:
the two sign conventions disagree. -/
theorem C2_counterexample :
    diferencaCalc (some 100) (some 40) = 60 ∧
    resumoDiferencaExport (some 40) (some 100) = -60 ∧
    (60 : ℚ) ≠ -60 := by
  refine ⟨?_, ?_, by norm_num⟩
  · rw [diferencaCalc, coalesceQ, coalesceQ]
    norm_num
    rw [round2, roundAway, if_pos (by norm_num)]
    norm_num
  · rw [resumoDiferencaExport, resumoDiferenca]
    norm_num [coalesceQ]

/-- Claim C2 (amended): the stored `diferenca` is always
`round(ledgerTotal − accountingTotal, 2)`, but the exported Summary sheet
computes its difference column as `accountingTotal − ledgerTotal` — the
opposite sign convention, so no single convention holds across storage
and export. -/
theorem C2_sign_conventions (f c : ℚ) (r : ResRow) :
    diferencaCalc (some f) (some c) = round2 (f - c) ∧
    (updDiferenca r).diferenca = some (diferencaCalc r.saldo_financeiro r.saldo_contabil) ∧
    resumoDiferencaExport (some c) (some f) = c - f ∧
    resumoDiferencaExport (some c) (some f) = -(f - c) := by
  refine ⟨rfl, rfl, rfl, ?_⟩
  show coalesceQ (resumoDiferenca (some c) (some f)) 0 = -(f - c)
  rw [resumoDiferenca]
  show coalesceQ (some (c - f)) 0 = -(f - c)
  rw [coalesceQ]
  ring

/-! ## Claim C3 -/

/-- Claim C3 counterexample: with an exact-code match worth 100 present,
the description-equality strategy still contributes a further 50 — the
accounting total is 150, not the 100 that strict precedence (description
only when exact finds nothing) would give. -/
theorem C3_counterexample :
    saldoContabilUpdate exMods3 (some "123") (some "ACME") = 150 ∧
    saldoContabilSpec exMods3 (some "123") (some "ACME") = 100 ∧
    (150 : ℚ) ≠ 100 := by
  refine ⟨?_, ?_, by norm_num⟩
  · rw [saldoContabilUpdate, exMods3]
    simp [modMatches, exactCodeMatch, descricaoMatch, optEqS]
    norm_num
  · rw [saldoContabilSpec, exMods3]
    simp [exactCodeMatch, descricaoMatch, optEqS]

/-- Claim C3 (amended): the accounting total sums the exact-code matches
and, simultaneously and unconditionally, every row matched by description
equality alone — the `WHERE` combines the two strategies with `OR`, with
no precedence of (a) over (b). -/
theorem C3_matching_no_precedence (mods : List ModRow) (codigo descricao : Option String) :
    saldoContabilUpdate mods codigo descricao
      = ((mods.filter (fun m => exactCodeMatch m codigo)).map
          (fun m => m.saldo_atual)).sum
        + ((mods.filter (fun m =>
            !exactCodeMatch m codigo && descricaoMatch m descricao)).map
          (fun m => m.saldo_atual)).sum := by
  rw [saldoContabilUpdate]
  simp only [modMatches]
  exact sum_filter_orSplit mods (fun m => exactCodeMatch m codigo)
    (fun m => descricaoMatch m descricao)

/-! ## Claim C6 -/

/-- Dissecting a `formatError` raised by the finalize stage: it names the
calling file, a non-empty set of still-missing expected columns, and never
the always-synthesizable `conta_contabil`. -/
theorem finalize_formatError (file : String) (cols1 expected : List String)
    (hexp : expected.Nodup) (f : String) (missing : List String)
    (h : finalizeColumns file cols1 expected = .error (.formatError f missing)) :
    f = file ∧ missing ≠ [] ∧ missing ⊆ expected ∧ "conta_contabil" ∉ missing := by
  rw [finalizeColumns] at h
  by_cases hrem : (expected.filter (fun c => decide (c ∉ cols1))).isEmpty
  · rw [if_pos hrem] at h; cases h
  · rw [if_neg hrem] at h
    set remaining := expected.filter (fun c => decide (c ∉ cols1)) with hremdef
    have hndrem : remaining.Nodup := hexp.filter _
    by_cases hp : "parcela" ∈ remaining ∧ "titulo" ∈ cols1
    · rw [if_pos hp] at h
      dsimp only [] at h
      by_cases hc : "conta_contabil" ∈ (remaining.erase "parcela")
      · rw [if_pos hc] at h
        by_cases h2 : ((remaining.erase "parcela").erase "conta_contabil").isEmpty
        · rw [if_pos h2] at h; cases h
        · rw [if_neg h2] at h
          injection h with h
          injection h with hf hm
          subst hf; subst hm
          refine ⟨rfl, by simpa using h2, ?_, ?_⟩
          · intro x hx
            exact List.mem_of_mem_filter (List.erase_subset _ _ (List.erase_subset _ _ hx))
          · intro hx
            have := ((hndrem.erase "parcela").mem_erase_iff).mp hx
            exact this.1 rfl
      · rw [if_neg hc] at h
        by_cases h2 : ((remaining.erase "parcela")).isEmpty
        · rw [if_pos h2] at h; cases h
        · rw [if_neg h2] at h
          injection h with h
          injection h with hf hm
          subst hf; subst hm
          exact ⟨rfl, by simpa using h2,
            fun x hx => List.mem_of_mem_filter (List.erase_subset _ _ hx), hc⟩
    · rw [if_neg hp] at h
      dsimp only [] at h
      by_cases hc : "conta_contabil" ∈ remaining
      · rw [if_pos hc] at h
        by_cases h2 : (remaining.erase "conta_contabil").isEmpty
        · rw [if_pos h2] at h; cases h
        · rw [if_neg h2] at h
          injection h with h
          injection h with hf hm
          subst hf; subst hm
          refine ⟨rfl, by simpa using h2,
            fun x hx => List.mem_of_mem_filter (List.erase_subset _ _ hx), ?_⟩
          intro hx
          exact ((hndrem.mem_erase_iff).mp hx).1 rfl
      · rw [if_neg hc] at h
        by_cases h2 : remaining.isEmpty
        · rw [if_pos h2] at h; cases h
        · rw [if_neg h2] at h
          injection h with h
          injection h with hf hm
          subst hf; subst hm
          exact ⟨rfl, by simpa using h2, fun x hx => List.mem_of_mem_filter hx, hc⟩

theorem finalize_cases (file : String) (cols1 expected : List String) :
    (∃ out, finalizeColumns file cols1 expected = .ok out) ∨
    (∃ missing, finalizeColumns file cols1 expected
      = .error (.formatError file missing)) := by
  rw [finalizeColumns]
  by_cases hrem : (expected.filter (fun c => decide (c ∉ cols1))).isEmpty
  · rw [if_pos hrem]; exact Or.inl ⟨_, rfl⟩
  · rw [if_neg hrem]
    dsimp only []
    split <;> split <;>
      first
      | exact Or.inl ⟨_, rfl⟩
      | exact Or.inr ⟨_, rfl⟩
      | (split <;>
          first
          | exact Or.inl ⟨_, rfl⟩
          | exact Or.inr ⟨_, rfl⟩)

theorem finalize_ne_sug (file : String) (cols1 expected : List String) :
    finalizeColumns file cols1 expected ≠ .error .sugestoesError := by
  rcases finalize_cases file cols1 expected with ⟨out, hout⟩ | ⟨missing, hmiss⟩
  · rw [hout]; intro h; cases h
  · rw [hmiss]; intro h; injection h with h; cases h

theorem finalize_okCols (file : String) (cols1 expected : List String)
    (final : List String) (h : finalizeColumns file cols1 expected = .ok final)
    (c : String) (hc : c ∈ expected) : c ∈ final := by
  rw [finalizeColumns] at h
  by_cases hrem : (expected.filter (fun x => decide (x ∉ cols1))).isEmpty
  · rw [if_pos hrem] at h
    injection h with h
    subst h
    by_contra hnc
    have hmem : c ∈ expected.filter (fun x => decide (x ∉ cols1)) :=
      List.mem_filter.mpr ⟨hc, by simpa using hnc⟩
    rw [List.isEmpty_iff] at hrem
    rw [hrem] at hmem
    cases hmem
  · rw [if_neg hrem] at h
    by_cases hcin : c ∈ cols1
    · by_cases hp : "parcela" ∈ expected.filter (fun x => decide (x ∉ cols1))
          ∧ "titulo" ∈ cols1
      · rw [if_pos hp] at h
        dsimp only [] at h
        by_cases hcc : "conta_contabil"
            ∈ (expected.filter (fun x => decide (x ∉ cols1))).erase "parcela"
        · rw [if_pos hcc] at h
          by_cases h2 : (((expected.filter (fun x =>
              decide (x ∉ cols1))).erase "parcela").erase "conta_contabil").isEmpty
          · rw [if_pos h2] at h
            injection h with h
            subst h
            exact List.mem_append_left _ (List.mem_append_left _ hcin)
          · rw [if_neg h2] at h; cases h
        · rw [if_neg hcc] at h
          by_cases h2 : ((expected.filter (fun x =>
              decide (x ∉ cols1))).erase "parcela").isEmpty
          · rw [if_pos h2] at h
            injection h with h
            subst h
            exact List.mem_append_left _ hcin
          · rw [if_neg h2] at h; cases h
      · rw [if_neg hp] at h
        dsimp only [] at h
        by_cases hcc : "conta_contabil" ∈ expected.filter (fun x => decide (x ∉ cols1))
        · rw [if_pos hcc] at h
          by_cases h2 : ((expected.filter (fun x =>
              decide (x ∉ cols1))).erase "conta_contabil").isEmpty
          · rw [if_pos h2] at h
            injection h with h
            subst h
            exact List.mem_append_left _ hcin
          · rw [if_neg h2] at h; cases h
        · rw [if_neg hcc] at h
          rw [if_neg hrem] at h
          cases h
    · have hcr : c ∈ expected.filter (fun x => decide (x ∉ cols1)) :=
        List.mem_filter.mpr ⟨hc, by simpa using hcin⟩
      by_cases hp : "parcela" ∈ expected.filter (fun x => decide (x ∉ cols1))
          ∧ "titulo" ∈ cols1
      · rw [if_pos hp] at h
        dsimp only [] at h
        by_cases hcpar : c = "parcela"
        · subst hcpar
          by_cases hcc : "conta_contabil"
              ∈ (expected.filter (fun x => decide (x ∉ cols1))).erase "parcela"
          · rw [if_pos hcc] at h
            by_cases h2 : (((expected.filter (fun x =>
                decide (x ∉ cols1))).erase "parcela").erase "conta_contabil").isEmpty
            · rw [if_pos h2] at h
              injection h with h
              subst h
              exact List.mem_append_left _ (List.mem_append_right _ (by simp))
            · rw [if_neg h2] at h; cases h
          · rw [if_neg hcc] at h
            by_cases h2 : ((expected.filter (fun x =>
                decide (x ∉ cols1))).erase "parcela").isEmpty
            · rw [if_pos h2] at h
              injection h with h
              subst h
              exact List.mem_append_right _ (by simp)
            · rw [if_neg h2] at h; cases h
        · have hcr2 : c ∈ (expected.filter (fun x => decide (x ∉ cols1))).erase "parcela" :=
            (List.mem_erase_of_ne hcpar).mpr hcr
          by_cases hcc : "conta_contabil"
              ∈ (expected.filter (fun x => decide (x ∉ cols1))).erase "parcela"
          · rw [if_pos hcc] at h
            by_cases h2 : (((expected.filter (fun x =>
                decide (x ∉ cols1))).erase "parcela").erase "conta_contabil").isEmpty
            · rw [if_pos h2] at h
              injection h with h
              subst h
              rw [List.isEmpty_iff] at h2
              rcases erase_eq_nil_cases _ _ h2 with hnil | hone
              · rw [hnil] at hcr2; cases hcr2
              · rw [hone] at hcr2
                have hceq : c = "conta_contabil" := by simpa using hcr2
                subst hceq
                exact List.mem_append_right _ (by simp)
            · rw [if_neg h2] at h; cases h
          · rw [if_neg hcc] at h
            by_cases h2 : ((expected.filter (fun x =>
                decide (x ∉ cols1))).erase "parcela").isEmpty
            · rw [if_pos h2] at h
              injection h with h
              subst h
              rw [List.isEmpty_iff] at h2
              rw [h2] at hcr2
              cases hcr2
            · rw [if_neg h2] at h; cases h
      · rw [if_neg hp] at h
        dsimp only [] at h
        by_cases hcc : "conta_contabil" ∈ expected.filter (fun x => decide (x ∉ cols1))
        · rw [if_pos hcc] at h
          by_cases h2 : ((expected.filter (fun x =>
              decide (x ∉ cols1))).erase "conta_contabil").isEmpty
          · rw [if_pos h2] at h
            injection h with h
            subst h
            rw [List.isEmpty_iff] at h2
            rcases erase_eq_nil_cases _ _ h2 with hnil | hone
            · rw [hnil] at hcr; cases hcr
            · rw [hone] at hcr
              have hceq : c = "conta_contabil" := by simpa using hcr
              subst hceq
              exact List.mem_append_right _ (by simp)
          · rw [if_neg h2] at h; cases h
        · rw [if_neg hcc] at h
          rw [if_neg hrem] at h
          cases h

/-- Claim C6 (amended): whenever required columns stay unresolved after
the mapping, suggestion and derivation strategies, the import raises a
`FormatError` naming the file and exactly those columns — but the
account-code column `conta_contabil` is never among them, because its
placeholder derivation (`'CONTA_NAO_IDENTIFICADA'`) applies
unconditionally; a source file missing its account-code column therefore
imports successfully instead of failing. -/
theorem C6_required_columns (cm : String → List String → Option String)
    (hcm : ∀ q cs m, cm q cs = some m → m ∈ cs)
    (file : String) (cols expected : List String) (hexp : expected.Nodup) :
    (∀ f missing, importResolve cm file cols expected
        = .error (.formatError f missing) →
      f = file ∧ missing ≠ [] ∧ missing ⊆ expected ∧ "conta_contabil" ∉ missing) ∧
    importResolve cm file cols expected ≠ .error .sugestoesError ∧
    (∀ final, importResolve cm file cols expected = .ok final →
      ∀ c ∈ expected, c ∈ final) := by
  obtain ⟨cols1, hcols1⟩ :
      ∃ cols1, importResolve cm file cols expected
        = finalizeColumns file cols1 expected := by
    rw [importResolve]
    by_cases he : (expected.filter (fun c => decide (c ∉ cols))).isEmpty
    · rw [if_pos he]
      exact ⟨cols, rfl⟩
    · rw [if_neg he]
      obtain ⟨out, hout⟩ := sugLoop_isOk cm hcm cols
        ((manualPass manualMapping (cols, expected.filter (fun c => decide (c ∉ cols)))).2)
        (manualPass manualMapping (cols, expected.filter (fun c => decide (c ∉ cols))))
      simp only [aplicarSugestoes, hout]
      exact ⟨out.1, rfl⟩
  rw [hcols1]
  exact ⟨fun f missing h => finalize_formatError file cols1 expected hexp f missing h,
    finalize_ne_sug file cols1 expected,
    fun final h c hc => finalize_okCols file cols1 expected final h c hc⟩

/-- Witness for C6: a `modelo1`-style import whose header set resolves
everything except `saldo_atual` raises the format error naming exactly
that column. -/
theorem C6_required_columns_witness :
    (["saldo_atual"] : List String) ≠ [] ∧ "conta_contabil" ∉ (["saldo_atual"] : List String) := by
  have h := (C6_required_columns (fun _ _ => none)
    (fun q cs m hm => by cases hm) "f.xlsx" ["fornecedor"]
    ["fornecedor", "saldo_atual"] (by decide)).1 "f.xlsx" ["saldo_atual"] rfl
  exact ⟨h.2.1, h.2.2.2⟩

/-- Claim C6 counterexample: the `financeiro` file headers with
`conta_contabil` absent (and `difflib` finding no fuzzy candidate at
cutoff 0.6 — the best ratio over these headers is 0.462) import
successfully with the placeholder column appended, where the claim
demands a `FormatError` naming `conta_contabil`. -/
theorem C6_counterexample :
    "conta_contabil" ∈ expectedFinanceiro ∧
    "conta_contabil" ∉ finColsNoConta ∧
    importResolve (fun _ _ => none) "finr150.xlsx" finColsNoConta expectedFinanceiro
      = Except.ok (finColsNoConta ++ ["conta_contabil"]) :=
  ⟨by decide, by decide, rfl⟩

/-! ## Claim C5 -/

/-- Claim C5 counterexample: on a store whose advance-result table lacks
the `total_financeiro` column, the recreate path's mid-run `COMMIT` makes
the main pass's writes durable, so an error later in the advance pass
leaves the previously committed row `exRes5` replaced by the new
(here empty) result set instead of rolled back. -/
theorem C5_counterexample :
    (committedAfterFailure exDB5 12).resultado = [] ∧
    exDB5.resultado = [exRes5] ∧ ([] : List ResRow) ≠ [exRes5] :=
  ⟨rfl, rfl, by simp⟩

/-- Claim C5 (amended): provided the advance-result table already has its
`total_financeiro` column (so `_recreate_adiantamento_table` and its
mid-run `COMMIT` are not reached), a failure after any prefix of the
run's statements — every prefix short of the final `COMMIT` — rolls the
store back to exactly its previous state. -/
theorem C5_rollback (db : DB) (k : ℕ) (h1 : db.advSchemaOk = true) (h2 : k ≤ 15) :
    committedAfterFailure db k = db := by
  rw [committedAfterFailure, h1]
  have hall : ((stepsFor true).take 15).all (fun s => !isCommit s) = true := rfl
  have htk : (stepsFor true).take k = ((stepsFor true).take 15).take k := by
    rw [List.take_take, min_eq_left h2]
  rw [htk]
  refine runSteps_committed _ _ (fun s hs => ?_)
  have hmem := List.mem_of_mem_take hs
  have := List.all_eq_true.mp hall s hmem
  simpa using this

/-- Witness for C5: a failure three statements into a run over a
well-shaped store leaves the store untouched. -/
theorem C5_rollback_witness : committedAfterFailure exDB5ok 3 = exDB5ok :=
  C5_rollback exDB5ok 3 rfl (by norm_num)

/-! ## Claim C7 -/

/-- Statement `query_contabil_update` never touches `saldo_financeiro`. -/
theorem sf_updContabil (mods : List ModRow) (r : ResRow) :
    (updContabil mods r).saldo_financeiro = r.saldo_financeiro := by
  rw [updContabil]; split <;> rfl

/-- Statement `query_adiantamento` never touches `saldo_financeiro`. -/
theorem sf_updAdiantamento (adis : List AdiRow) (r : ResRow) :
    (updAdiantamento adis r).saldo_financeiro = r.saldo_financeiro := by
  rw [updAdiantamento]; split <;> rfl

/-- Statement `query_diferenca` never touches `saldo_financeiro`. -/
theorem sf_updDiferenca (r : ResRow) :
    (updDiferenca r).saldo_financeiro = r.saldo_financeiro := rfl

/-- Statement `query_investigacao` never touches `saldo_financeiro`. -/
theorem sf_updInvestigacao (itens : List ItemRow) (r : ResRow) :
    (updInvestigacao itens r).saldo_financeiro = r.saldo_financeiro := by
  rw [updInvestigacao]; split <;> rfl

/-- The fallback detail `UPDATE` never touches `saldo_financeiro`. -/
theorem sf_updInvestigacaoFallback (r : ResRow) :
    (updInvestigacaoFallback r).saldo_financeiro = r.saldo_financeiro := by
  rw [updInvestigacaoFallback]; split <;> rfl

/-- The ranking `UPDATE` never touches `saldo_financeiro`. -/
theorem sf_updRank (all : List ResRow) (r : ResRow) :
    (updRank all r).saldo_financeiro = r.saldo_financeiro := rfl

/-- The final detail `CASE` never touches `saldo_financeiro`. -/
theorem sf_updFinalDetalhes (r : ResRow) :
    (updFinalDetalhes r).saldo_financeiro = r.saldo_financeiro := by
  rw [updFinalDetalhes]
  split
  · rfl
  · split <;> rfl

/-- A rowwise update preserving `saldo_financeiro` preserves its sum. -/
theorem sum_sf_map (l : List ResRow) (f : ResRow → ResRow)
    (h : ∀ r, (f r).saldo_financeiro = r.saldo_financeiro) :
    ((l.map f).map (fun r => coalesceQ r.saldo_financeiro 0)).sum
      = (l.map (fun r => coalesceQ r.saldo_financeiro 0)).sum := by
  induction l with
  | nil => rfl
  | cons a t ih =>
    rw [List.map_cons, List.map_cons, List.sum_cons, List.map_cons, List.sum_cons, h, ih]

/-- The supplier-class `INSERT` contributes `saldo_financeiro = 0` rows. -/
theorem sum_sf_semMatch (mods : List ModRow) (ex : List ResRow) :
    ((contabeisSemMatch mods ex).map (fun r => coalesceQ r.saldo_financeiro 0)).sum
      = 0 := by
  rw [contabeisSemMatch]
  rw [List.map_map]
  exact sum_map_zeroQ _ _ (fun k _ => rfl)

/-- The ledger aggregation conserves the non-excluded open balances. -/
theorem sum_sf_aggregate (fins : List FinRow) :
    ((aggregateFinanceiro fins).map (fun r => coalesceQ r.saldo_financeiro 0)).sum
      = ((fins.filter (fun f => !f.excluido)).map
          (fun f => coalesceQ f.saldo_devedor 0)).sum := by
  rw [aggregateFinanceiro]
  rw [List.map_map]
  have hrw : ∀ k ∈ (((fins.filter (fun f => !f.excluido)).map finKey).dedup),
      ((fun r : ResRow => coalesceQ r.saldo_financeiro 0) ∘ (fun k =>
        ({ codigo_fornecedor := k
           descricao_fornecedor := k
           saldo_contabil := some 0
           saldo_financeiro :=
             some ((((fins.filter (fun f => !f.excluido)).filter
               (fun f => decide (finKey f = k))).map
               (fun f => coalesceQ f.saldo_devedor 0)).sum)
           diferenca := some 0
           status := some "Pendente"
           detalhes := none
           ordem_importancia := none } : ResRow))) k
      = (((fins.filter (fun f => !f.excluido)).filter
          (fun f => decide (finKey f = k))).map
          (fun f => coalesceQ f.saldo_devedor 0)).sum := fun k _ => rfl
  rw [List.map_congr_left hrw]
  exact sum_groupBy finKey (fun f => coalesceQ f.saldo_devedor 0)
    (fins.filter (fun f => !f.excluido))
    (((fins.filter (fun f => !f.excluido)).map finKey).dedup)
    (List.nodup_dedup _)
    (fun a ha => List.mem_dedup.mpr (List.mem_map_of_mem finKey ha))

/-- Claim C7 (amended): the sum of `saldo_financeiro` over the final
result rows equals the sum of `COALESCE(saldo_devedor, 0)` over the
non-excluded ledger entries (no counterparty's balance is dropped), and
the rows inserted from the ledger aggregation carry pairwise-distinct
counterparty codes; uniqueness can still fail for the rows added by the
supplier-class `INSERT`, which also groups by description and class tag. -/
theorem C7_conservation_unique (db : DB) :
    ((processData db).resultado.map (fun r => coalesceQ r.saldo_financeiro 0)).sum
      = ((db.financeiro.filter (fun f => !f.excluido)).map
          (fun f => coalesceQ f.saldo_devedor 0)).sum ∧
    List.Pairwise (fun r1 r2 : ResRow => r1.codigo_fornecedor ≠ r2.codigo_fornecedor)
      (aggregateFinanceiro db.financeiro) := by
  constructor
  · have hres : (processData db).resultado
        = resultadoPipeline db.financeiro db.modelo1 db.contas_itens db.adiantamento := by
      rw [processData_eq]
    rw [hres, resultadoPipeline]
    rw [sum_sf_map _ updFinalDetalhes sf_updFinalDetalhes]
    rw [sum_sf_map _ _ (sf_updRank _)]
    rw [sum_sf_map _ updInvestigacaoFallback sf_updInvestigacaoFallback]
    rw [sum_sf_map _ _ (sf_updInvestigacao _)]
    rw [sum_sf_map _ updDiferenca sf_updDiferenca]
    rw [List.map_append, List.sum_append]
    rw [sum_sf_semMatch, add_zero]
    rw [sum_sf_map _ _ (sf_updAdiantamento _)]
    rw [sum_sf_map _ _ (sf_updContabil _)]
    exact sum_sf_aggregate db.financeiro
  · rw [aggregateFinanceiro]
    rw [List.pairwise_map]
    exact List.nodup_dedup _

/-- Claim C7 counterexample: two supplier-class trial-balance lines whose
descriptions both start with `FORNECEDORES` but whose derived class tags
differ produce two result rows with the same counterparty code
`FORNECEDORES` in one run — `codigo_fornecedor` is not unique. -/
theorem C7_counterexample :
    ((processData exDB7).resultado.map (fun r => r.codigo_fornecedor)) =
      [some "FORNECEDORES", some "FORNECEDORES"] ∧
    ¬ List.Pairwise (fun a b : Option String => a ≠ b)
      [some "FORNECEDORES", some "FORNECEDORES"] := by
  constructor
  · simp [processData, stepsFor, runSteps, exDB7, stDelete, stInsertFin, stUpdContabil,
      stUpdAdiantamento, stSemMatch, stDiferenca, stInvestigacao, stInvestigacaoFallback,
      stRank, stFinalDetalhes, stAdvInsert, stAdvSoma, stAdvContabil, stAdvSemMatch,
      stAdvDiferenca, aggregateFinanceiro, contabeisSemMatch, likeFornec, likeStarts,
      upperStr, leadMatch, tipoFornecedorOf, strContains, scanMatch, semKeyCodigo,
      semKeyDescricao, isConsolidado, semCodigoExpr, updContabil, updAdiantamento,
      updDiferenca, updInvestigacao, updInvestigacaoFallback, updRank, updFinalDetalhes,
      aggregateAdvFin, classify_zero_ten, classify_zero_twenty, diferencaCalc, coalesceQ,
      optEqS, modMatches, exactCodeMatch, descricaoMatch, itemMatches, likeContains,
      List.dedup, firstToken, nullifEmpty, sqlTrim, trimSpaces, coalesceS]
  · intro h
    rcases h with _ | ⟨hne, _⟩
    exact (hne (some "FORNECEDORES") (List.mem_singleton.mpr rfl)) rfl

/-! ## Claim C8 -/

/-- Claim C8: each row's importance rank is the count of result rows
whose absolute (zero-coalesced) difference is at least its own; rows with
equal absolute difference get equal ranks, and a row with strictly larger
absolute difference gets a strictly smaller count — a descending,
tie-sharing ranking (the spec's "dense" rank is defined as precisely this
count). -/
theorem C8_ranking (rs : List ResRow) (a b : ResRow) (_ha : a ∈ rs) (hb : b ∈ rs) :
    (updRank rs a).ordem_importancia
      = some (((rs.filter (fun r2 =>
          decide (|coalesceQ r2.diferenca 0| ≥ |coalesceQ a.diferenca 0|))).length : ℤ)) ∧
    (|coalesceQ a.diferenca 0| = |coalesceQ b.diferenca 0| →
      (updRank rs a).ordem_importancia = (updRank rs b).ordem_importancia) ∧
    (|coalesceQ b.diferenca 0| < |coalesceQ a.diferenca 0| →
      (rs.filter (fun r2 =>
        decide (|coalesceQ r2.diferenca 0| ≥ |coalesceQ a.diferenca 0|))).length
        < (rs.filter (fun r2 =>
          decide (|coalesceQ r2.diferenca 0| ≥ |coalesceQ b.diferenca 0|))).length) := by
  refine ⟨rfl, fun heq => ?_, fun hlt => ?_⟩
  · simp only [updRank, heq]
  · refine filter_length_ltRows rs _ _ ?_ b hb ?_ ?_
    · intro x hx
      simp only [decide_eq_true_eq] at hx ⊢
      exact le_trans hlt.le hx
    · simp
    · simp only [decide_eq_false_iff_not]
      exact not_le.mpr hlt

/-- Witness for C8 on two concrete rows with differences 10 and 5. -/
theorem C8_ranking_witness :
    ([exRes8a, exRes8b].filter (fun r2 =>
        decide (|coalesceQ r2.diferenca 0| ≥ |coalesceQ exRes8a.diferenca 0|))).length
      < ([exRes8a, exRes8b].filter (fun r2 =>
        decide (|coalesceQ r2.diferenca 0| ≥ |coalesceQ exRes8b.diferenca 0|))).length :=
  (C8_ranking [exRes8a, exRes8b] exRes8a exRes8b (by simp) (by simp)).2.2
    (by norm_num [exRes8a, exRes8b, coalesceQ])

/-! ## Claims C9 and C10 -/

/-- Claim C9 (amended): the exporter reports success only after re-opening
the workbook and passing `validate_output`, which verifies that every
required sheet is present (and monetary number formats on three legacy
column names when those happen to occur); a failed check is re-raised as
the export error.  Column headers themselves are not verified — see the
counterexample. -/
theorem C9_export_validation (wb : List Sheet) (p : String) :
    (∀ out, exportFinalize wb p = .ok out →
      out = p ∧ validateOutput wb = true ∧
        ∀ s ∈ requiredSheets, wb.any (fun sh => sh.name == s) = true) ∧
    (validateOutput wb = false → exportFinalize wb p =
      .error ("Erro ao exportar resultados: A validação da planilha gerada falhou: " ++ p)) := by
  constructor
  · intro out hout
    rw [exportFinalize] at hout
    by_cases hv : validateOutput wb
    · rw [if_pos hv] at hout
      injection hout with hout
      subst hout
      refine ⟨rfl, hv, fun s hs => ?_⟩
      have hall := (Bool.and_eq_true _ _).mp hv
      exact List.all_eq_true.mp hall.1 s hs
    · rw [if_neg hv] at hout
      cases hout
  · intro hv
    rw [exportFinalize, if_neg (by rw [hv]; exact Bool.false_ne_true)]

/-- Witness for C9: a workbook carrying the five required sheets passes
the check and its sheets are verified present. -/
theorem C9_export_validation_witness :
    validateOutput wbEx9ok = true ∧
    wbEx9ok.any (fun sh => sh.name == "Metadados") = true := by
  have h := (C9_export_validation wbEx9ok "saida.xlsx").1 "saida.xlsx" rfl
  exact ⟨h.2.1, h.2.2 "Metadados" (by decide)⟩

/-- Claim C9 counterexample: a workbook with all five required sheets and
not a single column header — in particular none of the Summary sheet's
real exported headers — passes `validate_output` and is reported as a
success, so required column headers are not verified. -/
theorem C9_counterexample :
    exportFinalize wbEx9 "out.xlsx" = Except.ok "out.xlsx" ∧
    validateOutput wbEx9 = true ∧
    wbEx9.map Sheet.header = [[], [], [], [], []] ∧
    resumoSheetHeaders ≠ [] :=
  ⟨rfl, rfl, rfl, by decide⟩

/-- Claim C10: when the lower-cased file-name stem carries one of the
markers `ctbr100`, `ctbr140`, `ctbr040`, `finr150`, the resolved target
table is determined by the stem alone (the caller's `table_name` is
ignored); only stems with none of the markers keep the declared table. -/
theorem C10_table_override (stem t1 t2 : String) :
    (hasTableMarker stem = true → resolveTableName stem t1 = resolveTableName stem t2) ∧
    (hasTableMarker stem = false → resolveTableName stem t1 = t1) := by
  cases hc1 : strContains (lowerStr stem) "ctbr100" <;>
    cases hc2 : strContains (lowerStr stem) "ctbr140" <;>
      cases hc3 : strContains (lowerStr stem) "ctbr040" <;>
        cases hc4 : strContains (lowerStr stem) "finr150" <;>
          simp [resolveTableName, hasTableMarker, hc1, hc2, hc3, hc4]

/-- Witness for C10: a `ctbr040` stem overrides any declared table, and a
marker-free stem keeps it. -/
theorem C10_table_override_witness :
    resolveTableName "relatorio_ctbr040_01" "tabela_a"
      = resolveTableName "relatorio_ctbr040_01" "tabela_b" ∧
    resolveTableName "arquivo_qualquer" "tabela_a" = "tabela_a" :=
  ⟨(C10_table_override "relatorio_ctbr040_01" "tabela_a" "tabela_b").1 (by decide),
   (C10_table_override "arquivo_qualquer" "tabela_a" "tabela_b").2 (by decide)⟩

end Conciliacao
